import Mathlib

/-!
Verification of the LCDM-2000 serial dispenser driver.

Bytes are modelled as natural numbers (all values produced by the code stay
below 256; XOR of two such values stays below 256).  Fallible operations
return an Except value; a Go runtime panic (slice index out of range) is
modelled by a dedicated error value or by Option.none, as noted at each
definition.  The serial transport is modelled as a function from the read
attempt number (starting at 1) to the chunk of bytes that attempt returns.
-/

namespace Lcdm2000

/-- Frame marker constants, from the constant block of the source. -/
def RequestStart : Nat := 0x04

def ResponseStart : Nat := 0x01

def CommunicationIdentify : Nat := 0x50

def TextStart : Nat := 0x02

def TextEnd : Nat := 0x03

/-- Status code constant Good, from the source constant block. -/
def Good : Nat := 0x30

/-- Error classification used by the driver, following the error taxonomy of
the design: portClosed is the closed-session failure, readExhausted the
retry-ceiling failure, malformedFrame and checksumMismatch the two frame
validation failures, responseNotAck the non-ACK control byte failure, and
sliceOutOfRange models a Go runtime panic from an out-of-range slice. -/
inductive LcdmError where
  | portClosed
  | readExhausted
  | malformedFrame
  | checksumMismatch
  | responseNotAck
  | sliceOutOfRange
deriving DecidableEq, Repr

/-- XOR-fold checksum, translated from getChecksum in the source: starts
from zero and xors every byte of the list in order. -/
def getChecksum (data : List Nat) : Nat :=
  data.foldl (fun chksum b => chksum ^^^ b) 0

/-- The byte sequence built by sendRequest in the source, written as the
same sequence of buffer appends: RequestStart, CommunicationIdentify,
TextStart, the command code, each payload chunk in order, TextEnd, and
finally the checksum of everything written so far. -/
def sendRequestBytes (commandCode : Nat) (bytesData : List (List Nat)) : List Nat :=
  let buf : List Nat := []
  let buf := buf ++ [RequestStart]
  let buf := buf ++ [CommunicationIdentify]
  let buf := buf ++ [TextStart]
  let buf := buf ++ [commandCode]
  let buf := bytesData.foldl (fun b data => b ++ data) buf
  let buf := buf ++ [TextEnd]
  let crc := getChecksum buf
  buf ++ [crc]

/-- sendRequest from the source: fails with the closed-port error when the
session is not open, otherwise returns the frame written to the transport. -/
def sendRequest (isOpen : Bool) (commandCode : Nat) (bytesData : List (List Nat)) :
    Except LcdmError (List Nat) :=
  if !isOpen then .error .portClosed
  else .ok (sendRequestBytes commandCode bytesData)

lemma foldl_append_eq_flatten (chunks : List (List Nat)) (init : List Nat) :
    chunks.foldl (fun b data => b ++ data) init = init ++ chunks.flatten := by
  induction chunks generalizing init with
  | nil => simp
  | cons c cs ih => simp [List.foldl_cons, ih, List.append_assoc]

/-- Retry ceiling of both read loops, from the source. -/
def maxReadCount : Nat := 1050

/-- Stopping condition of the data-frame read loop, from readRespData in the
source: more than two bytes accumulated and the second-to-last byte equals
TextEnd. -/
def dataStop (buf : List Nat) : Bool :=
  decide (2 < buf.length) && (buf.getD (buf.length - 2) 0 == TextEnd)

/-- Stopping condition of the control-byte read loop, from readRespCode in
the source: at least one byte accumulated. -/
def codeStop (buf : List Nat) : Bool :=
  decide (1 ≤ buf.length)

/-- The shared read loop of readRespCode and readRespData in the source.
Each iteration first increments the try counter and fails when it reaches
maxReadCount, otherwise performs one transport read (the chunk returned by
the stream at that attempt number), appends it to the accumulation buffer,
and stops when the stopping condition holds.  The result pairs the number
of transport reads actually performed with the final buffer (none on
exhaustion).  The fuel argument only bounds the recursion; starting it at
maxReadCount makes the counter check fire strictly before fuel runs out. -/
def readLoopAux (stop : List Nat → Bool) (stream : Nat → List Nat) :
    Nat → Nat → Nat → List Nat → Nat × Option (List Nat)
  | 0, _, reads, _ => (reads, none)
  | fuel + 1, tries, reads, buf =>
    let tries' := tries + 1
    if maxReadCount ≤ tries' then (reads, none)
    else
      let buf' := buf ++ stream tries'
      let reads' := reads + 1
      if stop buf' then (reads', some buf')
      else readLoopAux stop stream fuel tries' reads' buf'

/-- Entry point of the read loop: empty buffer, zero tries, zero reads. -/
def readLoop (stop : List Nat → Bool) (stream : Nat → List Nat) : Nat × Option (List Nat) :=
  readLoopAux stop stream maxReadCount 0 0 []

/-- The data-frame read loop of readRespData. -/
def readRespDataLoop (stream : Nat → List Nat) : Nat × Option (List Nat) :=
  readLoop dataStop stream

/-- The control-byte read loop of readRespCode. -/
def readRespCodeLoop (stream : Nat → List Nat) : Nat × Option (List Nat) :=
  readLoop codeStop stream

/-- The buffer accumulated after k transport reads from the stream. -/
def accumulate (stream : Nat → List Nat) : Nat → List Nat
  | 0 => []
  | n + 1 => accumulate stream n ++ stream (n + 1)

/-- Control byte classification, from the if-chain at the end of
readRespCode in the source: 0x06 is ACK, 0x15 is NAK, 0x04 is EOT, and any
other byte yields the error-response classification without a Go error. -/
inductive ResponseType where
  | ackResponse
  | nackResponse
  | eotResponse
  | errorResponse
deriving DecidableEq, Repr

def classifyRespCode (b : Nat) : ResponseType :=
  if b = 0x06 then .ackResponse
  else if b = 0x15 then .nackResponse
  else if b = 0x04 then .eotResponse
  else .errorResponse

/-- readRespCode from the source: run the control-byte read loop and
classify the first accumulated byte.  Classification itself never fails;
only exhaustion of the loop produces an error. -/
def readRespCode (stream : Nat → List Nat) : Except LcdmError ResponseType :=
  match readLoop codeStop stream with
  | (_, none) => .error .readExhausted
  | (_, some buf) => .ok (classifyRespCode (buf.getD 0 0))

/-- The checksum check of readRespData in the source: the last byte is the
transmitted checksum, the rest is the covered prefix; recompute and
compare, returning the stripped prefix on success. -/
def checksumCheck (buf : List Nat) : Except LcdmError (List Nat) :=
  let crc := buf.getD (buf.length - 1) 0
  let buf1 := buf.take (buf.length - 1)
  let crc2 := getChecksum buf1
  if crc ≠ crc2 then .error .checksumMismatch
  else .ok buf1

/-- Validation of a complete candidate buffer, from readRespData in the
source: first the ResponseStart and CommunicationIdentify bytes, then the
checksum, then the TextStart and trailing TextEnd markers of the stripped
buffer, and finally the payload slice from offset 4 up to the TextEnd
marker.  The Go slice buf with bounds 4 and length minus 1 panics when the
stripped buffer is shorter than 5; that panic is modelled by the
sliceOutOfRange error. -/
def validateRespData (buf : List Nat) : Except LcdmError (List Nat) :=
  if buf.getD 0 0 ≠ ResponseStart ∨ buf.getD 1 0 ≠ CommunicationIdentify then
    .error .malformedFrame
  else
    let crc := buf.getD (buf.length - 1) 0
    let buf1 := buf.take (buf.length - 1)
    let crc2 := getChecksum buf1
    if crc ≠ crc2 then .error .checksumMismatch
    else if buf1.getD 2 0 ≠ TextStart ∨ buf1.getD (buf1.length - 1) 0 ≠ TextEnd then
      .error .malformedFrame
    else if buf1.length < 5 then .error .sliceOutOfRange
    else .ok ((buf1.drop 4).take (buf1.length - 1 - 4))

/-- readRespData from the source: run the data-frame read loop, then
validate the accumulated buffer. -/
def readRespData (stream : Nat → List Nat) : Except LcdmError (List Nat) :=
  match readLoop dataStop stream with
  | (_, none) => .error .readExhausted
  | (_, some buf) => validateRespData buf

/-- readResponse from the source: read and classify the control byte; any
classification other than ACK fails with the single not-acknowledged
error; on ACK, read the data frame. -/
def readResponse (codeStream dataStream : Nat → List Nat) : Except LcdmError (List Nat) :=
  match readRespCode codeStream with
  | .error e => .error e
  | .ok r =>
    if r ≠ ResponseType.ackResponse then .error .responseNotAck
    else readRespData dataStream

/-- C1: for every command code and every sequence of payload chunks, the
request frame written to the transport is exactly the start marker 0x04,
the device id 0x50, the text-start marker 0x02, the command code, the
payload bytes in order, the text-end marker 0x03, and a trailing checksum
byte that is the XOR-fold of every preceding byte of the frame. -/
theorem sendRequest_frame (commandCode : Nat) (bytesData : List (List Nat)) :
    sendRequest true commandCode bytesData =
      .ok (([RequestStart, CommunicationIdentify, TextStart, commandCode]
              ++ bytesData.flatten ++ [TextEnd])
           ++ [getChecksum ([RequestStart, CommunicationIdentify, TextStart, commandCode]
              ++ bytesData.flatten ++ [TextEnd])]) := by
  simp only [sendRequest, Bool.not_true, Bool.false_eq_true, if_false, sendRequestBytes,
    foldl_append_eq_flatten]
  simp [List.append_assoc]

lemma accumulate_zero (stream : Nat → List Nat) : accumulate stream 0 = [] := rfl

lemma accumulate_const_nil : ∀ k, accumulate (fun _ => ([] : List Nat)) k = [] := by
  intro k
  induction k with
  | zero => rfl
  | succ n ih => simp [accumulate, ih]

lemma readLoopAux_step (stop : List Nat → Bool) (stream : Nat → List Nat)
    (fuel tries reads : Nat) (buf : List Nat) :
    readLoopAux stop stream (fuel + 1) tries reads buf =
      if maxReadCount ≤ tries + 1 then (reads, none)
      else if stop (buf ++ stream (tries + 1)) then (reads + 1, some (buf ++ stream (tries + 1)))
      else readLoopAux stop stream fuel (tries + 1) (reads + 1) (buf ++ stream (tries + 1)) := by
  rfl

/-- When the accumulated buffer never satisfies the stopping condition, the
read loop runs down its whole counter budget: starting from a given try
count it performs the remaining reads and fails. -/
lemma readLoopAux_never (stop : List Nat → Bool) (stream : Nat → List Nat)
    (h : ∀ k, stop (accumulate stream k) = false) :
    ∀ fuel tries reads, fuel + tries = maxReadCount →
      readLoopAux stop stream fuel tries reads (accumulate stream tries) =
        (reads + (maxReadCount - 1 - tries), none) := by
  intro fuel
  induction fuel with
  | zero =>
    intro tries reads hft
    have ht : tries = maxReadCount := by omega
    subst ht
    simp [readLoopAux]
  | succ fuel ih =>
    intro tries reads hft
    rw [readLoopAux_step]
    by_cases hc : maxReadCount ≤ tries + 1
    · have h0 : maxReadCount - 1 - tries = 0 := by omega
      rw [if_pos hc, h0]
      simp
    · rw [if_neg hc]
      have hacc : accumulate stream tries ++ stream (tries + 1) = accumulate stream (tries + 1) :=
        rfl
      rw [hacc, h (tries + 1), if_neg (by simp)]
      rw [ih (tries + 1) (reads + 1) (by omega)]
      have : reads + 1 + (maxReadCount - 1 - (tries + 1)) = reads + (maxReadCount - 1 - tries) := by
        omega
      rw [this]

set_option maxRecDepth 40000 in
/-- C3 counterexample: a transport that never produces any byte makes the
data-frame read loop (and likewise the control-byte read loop) perform 1049
transport reads before failing, not the 1050 the claim states, because the
try counter is incremented before the ceiling comparison. -/
theorem readLoop_attempts_cex :
    readRespDataLoop (fun _ => []) = (1049, none)
    ∧ readRespDataLoop (fun _ => []) ≠ (1050, none)
    ∧ readRespCodeLoop (fun _ => []) = (1049, none) := by
  refine ⟨by decide, by decide, by decide⟩

/-- C3 amended: for every transport whose accumulated buffers never satisfy
the stopping condition, the read loop performs exactly 1049 transport reads
(the 1050th loop iteration fails at the pre-incremented counter check
before reading) and the operation fails with the read-exhausted error;
never fewer reads, and never an infinite loop. -/
theorem readLoop_exhaustion (s1 s2 : Nat → List Nat)
    (h1 : ∀ k, dataStop (accumulate s1 k) = false)
    (h2 : ∀ k, codeStop (accumulate s2 k) = false) :
    readRespDataLoop s1 = (1049, none)
    ∧ readRespData s1 = .error .readExhausted
    ∧ readRespCodeLoop s2 = (1049, none)
    ∧ readRespCode s2 = .error .readExhausted := by
  have hd : readLoop dataStop s1 = (1049, none) := by
    have h := readLoopAux_never dataStop s1 h1 maxReadCount 0 0 (by omega)
    rw [accumulate_zero] at h
    simpa [readLoop, maxReadCount] using h
  have hcd : readLoop codeStop s2 = (1049, none) := by
    have h := readLoopAux_never codeStop s2 h2 maxReadCount 0 0 (by omega)
    rw [accumulate_zero] at h
    simpa [readLoop, maxReadCount] using h
  refine ⟨hd, ?_, hcd, ?_⟩
  · rw [readRespData, hd]
  · rw [readRespCode, hcd]

theorem readLoop_exhaustion_witness :
    readRespDataLoop (fun _ => ([] : List Nat)) = (1049, none)
    ∧ readRespData (fun _ => ([] : List Nat)) = .error .readExhausted
    ∧ readRespCodeLoop (fun _ => ([] : List Nat)) = (1049, none)
    ∧ readRespCode (fun _ => ([] : List Nat)) = .error .readExhausted :=
  readLoop_exhaustion (fun _ => []) (fun _ => [])
    (fun k => by rw [accumulate_const_nil]; decide)
    (fun k => by rw [accumulate_const_nil]; decide)

lemma readLoop_first_stop (stop : List Nat → Bool) (stream : Nat → List Nat)
    (h : stop (stream 1) = true) : readLoop stop stream = (1, some (stream 1)) := by
  rw [readLoop, show maxReadCount = 1049 + 1 from rfl, readLoopAux_step]
  simp [maxReadCount, h]

/-- C4: every first byte is classified into exactly one of ACK, NAK, EOT or
the unrecognized error-response classification, with no error returned for
the unrecognized case; and readResponse proceeds to the data-frame read
exactly when the classification is ACK, failing with the single
not-acknowledged error for NAK, EOT and unrecognized alike. -/
theorem respCode_classification (b : Nat) (dataStream : Nat → List Nat) :
    readRespCode (fun _ => [b]) = .ok (classifyRespCode b)
    ∧ readResponse (fun _ => [b]) dataStream =
        (if classifyRespCode b = .ackResponse then readRespData dataStream
         else .error .responseNotAck)
    ∧ (classifyRespCode b = .ackResponse ↔ b = 0x06)
    ∧ (classifyRespCode b = .nackResponse ↔ b = 0x15)
    ∧ (classifyRespCode b = .eotResponse ↔ b = 0x04)
    ∧ (classifyRespCode b = .errorResponse ↔ (b ≠ 0x06 ∧ b ≠ 0x15 ∧ b ≠ 0x04)) := by
  have hcode : readRespCode (fun _ => [b]) = .ok (classifyRespCode b) := by
    rw [readRespCode, readLoop_first_stop codeStop (fun _ => [b]) (by simp [codeStop])]
    rfl
  refine ⟨hcode, ?_, ?_, ?_, ?_, ?_⟩
  · rw [readResponse, hcode]
    by_cases hb : classifyRespCode b = .ackResponse
    · simp [hb]
    · simp [hb]
  all_goals
    by_cases h6 : b = 0x06 <;> by_cases h15 : b = 0x15 <;> by_cases h4 : b = 0x04 <;>
      simp [classifyRespCode, h6, h15, h4]

/-- Modelled from the spec words, for comparison only: the payload slice
strictly between the TextStart marker (offset 2 of the stripped buffer)
and the TextEnd marker (the last offset of the stripped buffer), that is
offsets 3 up to the byte before TextEnd. -/
def specPayloadStrictlyBetween (buf1 : List Nat) : List Nat :=
  (buf1.drop 3).take (buf1.length - 1 - 3)

/-- C2 counterexample: the buffer 01 50 02 41 03 11 passes every validation
check, yet the code returns the empty payload while the slice strictly
between the TextStart marker and the TextEnd marker of its stripped prefix
is the single byte 0x41: the byte right after TextStart is skipped. -/
theorem respData_payload_cex :
    validateRespData [0x01, 0x50, 0x02, 0x41, 0x03, 0x11] = .ok []
    ∧ specPayloadStrictlyBetween ([0x01, 0x50, 0x02, 0x41, 0x03, 0x11].take 5) = [0x41]
    ∧ ([] : List Nat) ≠ [0x41] := by
  refine ⟨rfl, by decide, by decide⟩

/-- C2 amended: on a complete candidate buffer, the checks run in order
(ResponseStart and device id, then checksum, then TextStart and trailing
TextEnd of the stripped buffer), the first failing check produces its
error (malformed frame for the structural checks, checksum mismatch for
the checksum), and on success the payload is the stripped buffer from
offset 4 up to just before the TextEnd marker, skipping the byte right
after TextStart. -/
theorem respData_validation (buf : List Nat) (hstop : dataStop buf = true) :
    ((buf.getD 0 0 ≠ ResponseStart ∨ buf.getD 1 0 ≠ CommunicationIdentify) →
        validateRespData buf = .error .malformedFrame)
    ∧ (buf.getD 0 0 = ResponseStart → buf.getD 1 0 = CommunicationIdentify →
        buf.getD (buf.length - 1) 0 ≠ getChecksum (buf.take (buf.length - 1)) →
        validateRespData buf = .error .checksumMismatch)
    ∧ (buf.getD 0 0 = ResponseStart → buf.getD 1 0 = CommunicationIdentify →
        buf.getD (buf.length - 1) 0 = getChecksum (buf.take (buf.length - 1)) →
        ((buf.take (buf.length - 1)).getD 2 0 ≠ TextStart ∨
          (buf.take (buf.length - 1)).getD ((buf.take (buf.length - 1)).length - 1) 0 ≠ TextEnd) →
        validateRespData buf = .error .malformedFrame)
    ∧ (buf.getD 0 0 = ResponseStart → buf.getD 1 0 = CommunicationIdentify →
        buf.getD (buf.length - 1) 0 = getChecksum (buf.take (buf.length - 1)) →
        (buf.take (buf.length - 1)).getD 2 0 = TextStart →
        (buf.take (buf.length - 1)).getD ((buf.take (buf.length - 1)).length - 1) 0 = TextEnd →
        5 ≤ (buf.take (buf.length - 1)).length →
        validateRespData buf =
          .ok (((buf.take (buf.length - 1)).drop 4).take
            ((buf.take (buf.length - 1)).length - 1 - 4))) := by
  refine ⟨?_, ?_, ?_, ?_⟩
  · intro h
    simp only [validateRespData]
    rw [if_pos h]
  · intro h0 h1 hcrc
    simp only [validateRespData]
    rw [if_neg (by push_neg; exact ⟨h0, h1⟩), if_pos hcrc]
  · intro h0 h1 hcrc hmark
    simp only [validateRespData]
    rw [if_neg (by push_neg; exact ⟨h0, h1⟩), if_neg (fun hh => hh hcrc), if_pos hmark]
  · intro h0 h1 hcrc hts hte hlen
    simp only [validateRespData]
    rw [if_neg (by push_neg; exact ⟨h0, h1⟩), if_neg (fun hh => hh hcrc),
      if_neg (by push_neg; exact ⟨hts, hte⟩), if_neg (by omega)]

theorem respData_validation_witness :
    validateRespData [9, 9, 3, 0] = .error .malformedFrame
    ∧ validateRespData [0x01, 0x50, 0x02, 0x41, 0x03, 0x00] = .error .checksumMismatch
    ∧ validateRespData [0x01, 0x50, 0x02, 0x00, 0x41, 0x03, 0x11] = .ok [0x41] := by
  refine ⟨(respData_validation [9, 9, 3, 0] (by decide)).1 (by decide),
    (respData_validation [0x01, 0x50, 0x02, 0x41, 0x03, 0x00] (by decide)).2.1
      (by decide) (by decide) (by decide),
    ?_⟩
  have h := (respData_validation [0x01, 0x50, 0x02, 0x00, 0x41, 0x03, 0x11] (by decide)).2.2.2
    (by decide) (by decide) (by decide) (by decide) (by decide) (by decide)
  exact h.trans rfl

lemma foldl_xor_init (l : List Nat) : ∀ a : Nat,
    l.foldl (fun c b => c ^^^ b) a = a ^^^ l.foldl (fun c b => c ^^^ b) 0 := by
  induction l with
  | nil => intro a; simp
  | cons x xs ih =>
    intro a
    simp only [List.foldl_cons]
    rw [ih (a ^^^ x), ih (0 ^^^ x)]
    simp [Nat.zero_xor, Nat.xor_assoc]

lemma getChecksum_cons (x : Nat) (xs : List Nat) :
    getChecksum (x :: xs) = x ^^^ getChecksum xs := by
  simp only [getChecksum, List.foldl_cons]
  rw [foldl_xor_init xs (0 ^^^ x)]
  simp [Nat.zero_xor]

/-- Xoring the byte at a position inside the list xors the whole fold. -/
lemma getChecksum_set : ∀ (l : List Nat) (j m : Nat), j < l.length →
    getChecksum (l.set j (l.getD j 0 ^^^ m)) = getChecksum l ^^^ m := by
  intro l
  induction l with
  | nil => intro j m h; simp at h
  | cons x xs ih =>
    intro j m h
    cases j with
    | zero =>
      simp only [List.set_cons_zero, List.getD_cons_zero]
      rw [getChecksum_cons, getChecksum_cons, Nat.xor_assoc, Nat.xor_assoc,
        Nat.xor_comm m (getChecksum xs)]
    | succ j =>
      simp only [List.set_cons_succ, List.getD_cons_succ]
      rw [getChecksum_cons, getChecksum_cons, ih j m (by simpa using h), Nat.xor_assoc]

lemma xor_ne_self (a m : Nat) (hm : m ≠ 0) : a ^^^ m ≠ a := by
  intro hh
  apply hm
  have h2 : a ^^^ (a ^^^ m) = a ^^^ a := by rw [hh]
  rwa [← Nat.xor_assoc, Nat.xor_self, Nat.zero_xor] at h2

/-- The checksum check applied to a frame written as prefix plus final
checksum byte: compare the transmitted byte against the fold of the
prefix. -/
lemma checksumCheck_append (b : List Nat) (c : Nat) :
    checksumCheck (b ++ [c]) =
      if c ≠ getChecksum b then .error .checksumMismatch else .ok b := by
  simp only [checksumCheck, List.length_append, List.length_cons, List.length_nil]
  rw [show b.length + (0 + 1) - 1 = b.length by omega]
  rw [List.getD_append_right b [c] 0 b.length (le_refl _), Nat.sub_self,
    List.getD_cons_zero, List.take_left]

/-- Single-bit flip at position j: xors that element with two to the i. -/
def flipBit (l : List Nat) (j i : Nat) : List Nat :=
  l.set j ((l.getD j 0) ^^^ (2 ^ i))

/-- C5: appending the XOR-fold checksum of any byte sequence yields a frame
whose checksum check succeeds and returns the original sequence, and
flipping any single bit of any byte of the sequence or of the checksum
byte makes the check fail with the checksum-mismatch error. -/
theorem checksum_roundtrip_flip (b : List Nat) (j i : Nat) :
    checksumCheck (b ++ [getChecksum b]) = .ok b
    ∧ (j < b.length + 1 → i < 8 →
        checksumCheck (flipBit (b ++ [getChecksum b]) j i) = .error .checksumMismatch) := by
  constructor
  · rw [checksumCheck_append, if_neg (fun hh => hh rfl)]
  · intro hj _
    have hpow : (2 : Nat) ^ i ≠ 0 := (Nat.two_pow_pos i).ne'
    rcases Nat.lt_or_ge j b.length with hlt | hge
    · have hset : flipBit (b ++ [getChecksum b]) j i =
          b.set j (b.getD j 0 ^^^ 2 ^ i) ++ [getChecksum b] := by
        rw [flipBit, List.getD_append b [getChecksum b] 0 j hlt, List.set_append,
          if_pos hlt]
      rw [hset, checksumCheck_append, getChecksum_set b j (2 ^ i) hlt,
        if_pos (Ne.symm (xor_ne_self (getChecksum b) (2 ^ i) hpow))]
    · have hj' : j = b.length := by omega
      subst hj'
      have hset : flipBit (b ++ [getChecksum b]) b.length i =
          b ++ [getChecksum b ^^^ 2 ^ i] := by
        rw [flipBit, List.getD_append_right b [getChecksum b] 0 b.length (le_refl _),
          Nat.sub_self, List.getD_cons_zero, List.set_append, if_neg (by omega),
          Nat.sub_self, List.set_cons_zero]
      rw [hset, checksumCheck_append,
        if_pos (xor_ne_self (getChecksum b) (2 ^ i) hpow)]

theorem checksum_roundtrip_flip_witness :
    checksumCheck ([0x12, 0x34] ++ [getChecksum [0x12, 0x34]]) = .ok [0x12, 0x34]
    ∧ checksumCheck (flipBit ([0x12, 0x34] ++ [getChecksum [0x12, 0x34]]) 2 0) =
        .error .checksumMismatch :=
  ⟨(checksum_roundtrip_flip [0x12, 0x34] 2 0).1,
    (checksum_roundtrip_flip [0x12, 0x34] 2 0).2 (by decide) (by decide)⟩

/-- The fourteen boolean sensor flags, from the SensorStatus struct of the
source. -/
structure SensorStatus where
  checkSensor1 : Bool
  checkSensor2 : Bool
  checkSensor3 : Bool
  checkSensor4 : Bool
  divertSensor1 : Bool
  divertSensor2 : Bool
  ejectSensor : Bool
  exitSensor : Bool
  solenoidSensor : Bool
  upperNearEnd : Bool
  lowerNearEnd : Bool
  cashBoxUpper : Bool
  cashBoxLower : Bool
  rejectTray : Bool
deriving DecidableEq, Repr

/-- The decoding step of the Status command, from the source: the status
code is taken from payload byte 1 and the sensor flags from bits of
payload bytes 2 and 3 (a payload shorter than 4 bytes makes the Go code
index out of range, modelled as none). -/
def decodeStatus (response : List Nat) : Option (Nat × SensorStatus) :=
  if response.length < 4 then none
  else some (response.getD 1 0,
    { checkSensor1 := response.getD 2 0 &&& (1 <<< 0) != 0
      checkSensor2 := response.getD 2 0 &&& (1 <<< 1) != 0
      checkSensor3 := response.getD 3 0 &&& (1 <<< 3) != 0
      checkSensor4 := response.getD 3 0 &&& (1 <<< 4) != 0
      divertSensor1 := response.getD 2 0 &&& (1 <<< 2) != 0
      divertSensor2 := response.getD 2 0 &&& (1 <<< 3) != 0
      ejectSensor := response.getD 2 0 &&& (1 <<< 4) != 0
      exitSensor := response.getD 2 0 &&& (1 <<< 5) != 0
      solenoidSensor := response.getD 3 0 &&& (1 <<< 0) != 0
      upperNearEnd := response.getD 2 0 &&& (1 <<< 6) != 0
      lowerNearEnd := response.getD 3 0 &&& (1 <<< 5) != 0
      cashBoxUpper := response.getD 3 0 &&& (1 <<< 1) != 0
      cashBoxLower := response.getD 3 0 &&& (1 <<< 2) != 0
      rejectTray := response.getD 3 0 &&& (1 <<< 6) != 0 })

/-- C6 counterexample: on the three-byte payload 30 05 02 named by the
claim the Status decode indexes payload byte 3 out of range (none), and on
a four-byte payload starting with those bytes the status code is taken
from payload byte 1 (value 5), not from payload byte 0 (value 0x30). -/
theorem statusDecode_cex :
    decodeStatus [0x30, 0x05, 0x02] = none
    ∧ decodeStatus [0x30, 0x05, 0x02, 0x00] =
        some (0x05,
          { checkSensor1 := false, checkSensor2 := true, checkSensor3 := false
            checkSensor4 := false, divertSensor1 := false, divertSensor2 := false
            ejectSensor := false, exitSensor := false, solenoidSensor := false
            upperNearEnd := false, lowerNearEnd := false, cashBoxUpper := false
            cashBoxLower := false, rejectTray := false })
    ∧ (0x05 : Nat) ≠ Good := by
  refine ⟨rfl, rfl, by decide⟩

/-- C6 amended: shifting the claimed payload one byte to the right, any
payload whose bytes 1, 2, 3 are 0x30, five and two decodes to status code
Good with CheckSensor1 true (bit 0 of byte 2), CheckSensor2 false (bit 1
of byte 2) and DivertSensor1 true (bit 2 of byte 2); the status code comes
from payload byte 1 and the flags from bits of payload bytes 2 and 3, and
payload byte 0 is ignored. -/
theorem statusDecode_amended (b0 : Nat) :
    decodeStatus [b0, 0x30, 0x05, 0x02] =
      some (Good,
        { checkSensor1 := true, checkSensor2 := false, checkSensor3 := false
          checkSensor4 := false, divertSensor1 := true, divertSensor2 := false
          ejectSensor := false, exitSensor := false, solenoidSensor := false
          upperNearEnd := false, lowerNearEnd := false, cashBoxUpper := true
          cashBoxLower := false, rejectTray := false }) := by
  simp only [decodeStatus, List.length_cons, List.getD_cons_succ, List.getD_cons_zero]
  rw [if_neg (by simp)]
  rfl

/-- The digit test of the ASCII-decimal parser. -/
def digitByte (c : Nat) : Bool := decide (48 ≤ c) && decide (c ≤ 57)

/-- Model of ParseUint with base ten and bit size eight as the source uses
it, with the returned error discarded: an empty or non-digit string gives
value 0 (syntax error), an out-of-range number gives the maximum 255
(range error), and otherwise the decimal value is returned. -/
def parseUint8 (ds : List Nat) : Nat :=
  if ds.isEmpty || !(ds.all digitByte) then 0
  else
    let v := ds.foldl (fun a c => a * 10 + (c - 48)) 0
    if 255 < v then 255 else v

/-- Model of the two-digit zero-padded decimal format used for dispense
counts: the decimal digits of n as ASCII bytes, left-padded with the zero
digit to width two. -/
def sprintf02d (n : Nat) : List Nat :=
  let ds := (Nat.toDigits 10 n).map Char.toNat
  List.replicate (2 - ds.length) 48 ++ ds

/-- The decoding step of UpperDispense and LowerDispense, from the source:
parse bytes 0 to 2 as the check count and bytes 2 to 34 as the exit count,
and take the status byte at offset 4 and the cashbox byte at offset 5.
The Go slice with bounds 2 and 34 panics when the payload is shorter than
34 bytes, modelled as none.  Result order follows the source return:
status code, cashbox status, check count, exit count. -/
def decodeUpperDispense (response : List Nat) : Option (Nat × Nat × Nat × Nat) :=
  if response.length < 34 then none
  else
    let checkSensor := parseUint8 (response.take 2)
    let exitSensor := parseUint8 ((response.drop 2).take 32)
    some (response.getD 4 0, response.getD 5 0, checkSensor, exitSensor)

/-- The decoding step of the dual Dispense command, from the source: both
the upper and the lower count pair are parsed from the same byte ranges
(bytes 0 to 2 and bytes 2 to 34), with the status byte at offset 8 and the
cashbox byte at offset 9.  Result order follows the source return: status,
cashbox, upper check, upper exit, lower check, lower exit. -/
def decodeDispense (response : List Nat) : Option (Nat × Nat × Nat × Nat × Nat × Nat) :=
  if response.length < 34 then none
  else
    let upperCheckSensor := parseUint8 (response.take 2)
    let upperExitSensor := parseUint8 ((response.drop 2).take 32)
    let lowerCheckSensor := parseUint8 (response.take 2)
    let lowerExitSensor := parseUint8 ((response.drop 2).take 32)
    some (response.getD 8 0, response.getD 9 0,
      upperCheckSensor, upperExitSensor, lowerCheckSensor, lowerExitSensor)

/-- C7: the request half of the claim holds: UpperDispense with count 7
sends command 0x45 with the two ASCII digit bytes of 07 as payload.  The
response half fails on the code: on the six-byte payload 0705 plus status
and cashbox bytes named by the claim, the slice of bytes 2 to 34 is out of
range (the Go code panics), so no decoded result with exit count 5 is
produced. -/
theorem upperDispense_bug :
    sendRequest true 0x45 [sprintf02d 7] = .ok [0x04, 0x50, 0x02, 0x45, 0x30, 0x37, 0x03, 0x17]
    ∧ sprintf02d 7 = [0x30, 0x37]
    ∧ decodeUpperDispense [0x30, 0x37, 0x30, 0x35, 0x30, 0x31] = none := by
  refine ⟨rfl, rfl, rfl⟩

/-- C8 counterexample: a 34-byte payload whose check-count field holds the
non-digit ASCII bytes X and Y is silently decoded: the dispense decode
returns a result with check count 0 and no error. -/
theorem dispense_garbage_cex :
    decodeUpperDispense ([0x58, 0x59] ++ List.replicate 32 0x30) =
      some (0x30, 0x30, 0, 0) := by
  rfl

/-- C8 amended: the dispense operations discard ASCII parse failures: for
every payload long enough for the Go slices (at least 34 bytes) whose
check-count field contains a non-digit byte, the decode silently returns a
result with check count 0; and every shorter payload makes the Go slice
panic (none) instead of producing a classified error. -/
theorem dispense_garbage_decoded (p q : List Nat) (hp : 34 ≤ p.length)
    (hnd : (p.take 2).all digitByte = false) (hq : q.length < 34) :
    decodeUpperDispense p = some (p.getD 4 0, p.getD 5 0, 0, parseUint8 ((p.drop 2).take 32))
    ∧ decodeUpperDispense q = none := by
  constructor
  · simp only [decodeUpperDispense]
    rw [if_neg (by omega)]
    have hz : parseUint8 (p.take 2) = 0 := by
      simp only [parseUint8]
      rw [if_pos (by simp [hnd])]
    rw [hz]
  · simp only [decodeUpperDispense]
    rw [if_pos hq]

theorem dispense_garbage_decoded_witness :
    decodeUpperDispense ([0x58, 0x59] ++ List.replicate 32 0x30) = some (0x30, 0x30, 0, 0)
    ∧ decodeUpperDispense [] = none := by
  have h := dispense_garbage_decoded ([0x58, 0x59] ++ List.replicate 32 0x30) []
    (by decide) (by decide) (by decide)
  exact ⟨h.1.trans (by rfl), h.2⟩

/-- C9: every payload the dual Dispense decode accepts yields a lower check
count equal to the upper check count and a lower exit count equal to the
upper exit count, because both pairs are parsed from the same byte
ranges. -/
theorem dispense_lower_equals_upper (p : List Nat) (s cb uc ue lc le : Nat)
    (h : decodeDispense p = some (s, cb, uc, ue, lc, le)) : uc = lc ∧ ue = le := by
  simp only [decodeDispense] at h
  by_cases hl : p.length < 34
  · rw [if_pos hl] at h
    exact absurd h (by simp)
  · rw [if_neg hl] at h
    simp only [Option.some.injEq, Prod.mk.injEq] at h
    obtain ⟨-, -, h3, h4, h5, h6⟩ := h
    exact ⟨h3.symm.trans h5, h4.symm.trans h6⟩

theorem dispense_lower_equals_upper_witness : (0 : Nat) = 0 ∧ (0 : Nat) = 0 :=
  dispense_lower_equals_upper (List.replicate 34 0x30) 0x30 0x30 0 0 0 0 (by rfl)

/-- The mutable session state of the driver: whether the port handle is
non-nil and the open flag, from the LCDMDispenser struct of the source. -/
structure LCDMDispenser where
  hasPort : Bool
  isOpen : Bool
deriving DecidableEq, Repr

/-- Outcome of the Open operation. -/
inductive OpenResult where
  | alreadyOpenedError
  | transportError
  | opened
deriving DecidableEq, Repr

/-- Open from the source: when the port handle is nil or the open flag is
false it fails with the already-opened error and changes nothing;
otherwise it attempts to reopen the transport (transportOk models whether
that attempt succeeds), failing without a state change on a transport
error and otherwise storing the fresh port and setting the open flag. -/
def openSession (s : LCDMDispenser) (transportOk : Bool) : OpenResult × LCDMDispenser :=
  if !s.hasPort || !s.isOpen then (.alreadyOpenedError, s)
  else if !transportOk then (.transportError, s)
  else (.opened, { hasPort := true, isOpen := true })

/-- Close from the source: when the port handle is nil or the open flag is
false it fails with the not-opened error and changes nothing; otherwise it
closes the transport and clears the open flag. -/
def closeSession (s : LCDMDispenser) : Except String LCDMDispenser :=
  if !s.hasPort || !s.isOpen then .error "port not opened"
  else .ok { s with isOpen := false }

/-- C10: Open on a session whose open flag is false or whose port handle is
nil always fails with the already-opened error and leaves the state
unchanged; the transport reopen is only attempted when the handle is
present and the session is marked open; and a session just closed by Close
can never be reopened by Open. -/
theorem open_guard (s1 s2 s3 s4 : LCDMDispenser) (t1 t2 : Bool) :
    ((s1.isOpen = false ∨ s1.hasPort = false) → openSession s1 t1 = (.alreadyOpenedError, s1))
    ∧ (s4.hasPort = true → s4.isOpen = true →
        openSession s4 false = (.transportError, s4))
    ∧ (closeSession s2 = .ok s3 → openSession s3 t2 = (.alreadyOpenedError, s3)) := by
  refine ⟨?_, ?_, ?_⟩
  · intro h
    simp only [openSession]
    rw [if_pos]
    rcases h with h | h <;> simp [h]
  · intro hp ho
    simp only [openSession]
    rw [if_neg (by simp [hp, ho]), if_pos (by simp)]
  · intro hc
    simp only [closeSession] at hc
    by_cases hg : (!s2.hasPort || !s2.isOpen) = true
    · rw [if_pos hg] at hc
      exact absurd hc (by simp)
    · rw [if_neg hg] at hc
      have h3 : s3 = { s2 with isOpen := false } := (Except.ok.inj hc).symm
      subst h3
      simp only [openSession]
      rw [if_pos (by simp)]

theorem open_guard_witness :
    openSession { hasPort := true, isOpen := false } true =
      (.alreadyOpenedError, { hasPort := true, isOpen := false })
    ∧ openSession { hasPort := true, isOpen := true } false =
      (.transportError, { hasPort := true, isOpen := true })
    ∧ openSession { hasPort := true, isOpen := false } false =
      (.alreadyOpenedError, { hasPort := true, isOpen := false }) := by
  have h := open_guard { hasPort := true, isOpen := false } { hasPort := true, isOpen := true }
    { hasPort := true, isOpen := false } { hasPort := true, isOpen := true } true false
  exact ⟨h.1 (Or.inl rfl), h.2.1 rfl rfl, h.2.2 (by rfl)⟩

end Lcdm2000
